import Mathlib

/-!
Shallow embedding of `src/digester.py` (class `MultimodalInvoiceProcessor`)
from the invoice-digest repository, together with theorems checking the
spec's claims about it.

Conventions of the embedding:
* Python dicts with string keys become association lists `List (String × α)`
  with Python's assignment semantics (`pyDictInsert`: overwrite in place if
  the key exists, append otherwise) and first-match lookup (`pyLookup`).
* JSON values become the inductive `Json`.
* Python exceptions become the inductive `PyErr`; a function that can raise
  returns `Except PyErr α` (or `Except String α` once the exception has been
  reduced to its message text, as the orchestrator does with `str(e)`).
* The filesystem is an explicit association list from path strings to
  `Option (List Nat)`: `some bytes` is an existing readable file, `none` is
  an existing but unreadable file (Python's `open` raises `PermissionError`
  there, while `Path.exists()` is still true).
* The OpenAI chat-completions endpoint is an oracle
  `api : Nat → List Json → Except String (List (String × Json) × Usage)`:
  call number and message content in, either an error (transport failure,
  malformed/ill-shaped response — everything the `try` block can catch) or
  the parsed JSON field mapping plus usage counters out.
-/

/-- JSON values, as produced by `json.loads` and built by the digester. -/
inductive Json : Type where
  | str (s : String) : Json
  | num (n : Nat) : Json
  | obj (fields : List (String × Json)) : Json
  | arr (elems : List Json) : Json

/-- Python exceptions raised by the digester, each carrying its message. -/
inductive PyErr : Type where
  | valueError (msg : String) : PyErr
  | fileNotFoundError (msg : String) : PyErr
  | permissionError (msg : String) : PyErr
  | runtimeError (msg : String) : PyErr

/-- Python's `str(e)` on an exception: its message text. -/
def PyErr.text : PyErr → String
  | .valueError m => m
  | .fileNotFoundError m => m
  | .permissionError m => m
  | .runtimeError m => m

/-- First-match lookup in an association list (Python `d[k]` / `d.get(k)`). -/
def pyLookup {α : Type} : List (String × α) → String → Option α
  | [], _ => none
  | (k', v) :: rest, k => if k' = k then some v else pyLookup rest k

/-- Python dict assignment `d[k] = v`: overwrite in place when the key is
present, append at the end otherwise. -/
def pyDictInsert {α : Type} : List (String × α) → String → α → List (String × α)
  | [], k, v => [(k, v)]
  | (k', v') :: rest, k, v =>
      if k' = k then (k', v) :: rest else (k', v') :: pyDictInsert rest k v

/-- Keys of an association list, in order. -/
def dictKeys {α : Type} (d : List (String × α)) : List String := d.map Prod.fst

/-! ### Base64 (`base64.b64encode`, as used by `_encode_file_to_base64`) -/

/-- The standard base64 alphabet. -/
def b64Alphabet : List Char :=
  "ABCDEFGHIJKLMNOPQRSTUVWXYZabcdefghijklmnopqrstuvwxyz0123456789+/".toList

/-- Character for a 6-bit group. -/
def b64Char (n : Nat) : Char := b64Alphabet.getD n 'A'

/-- Index of a character in the base64 alphabet, scanning from position `n`. -/
def b64IndexAux (c : Char) : List Char → Nat → Option Nat
  | [], _ => none
  | x :: xs, n => if x = c then some n else b64IndexAux c xs (n + 1)

/-- Index of a character in the base64 alphabet (`none` for '=' and other
non-alphabet characters). -/
def b64Index (c : Char) : Option Nat := b64IndexAux c b64Alphabet 0

/-- RFC 4648 base64 encoding of a byte list (each byte `< 256`), exactly what
Python's `base64.b64encode` produces: 3 bytes become 4 characters, with a
1-byte tail padded `==` and a 2-byte tail padded `=`. -/
def b64encodeChars : List Nat → List Char
  | [] => []
  | [b0] => [b64Char (b0 / 4), b64Char (b0 % 4 * 16), '=', '=']
  | [b0, b1] =>
      [b64Char (b0 / 4), b64Char (b0 % 4 * 16 + b1 / 16), b64Char (b1 % 16 * 4), '=']
  | b0 :: b1 :: b2 :: rest =>
      b64Char (b0 / 4) :: b64Char (b0 % 4 * 16 + b1 / 16) ::
        b64Char (b1 % 16 * 4 + b2 / 64) :: b64Char (b2 % 64) :: b64encodeChars rest

/-- Standard base64 decoding: the inverse transform applied by any compliant
decoder (e.g. `base64.b64decode`) to recover the byte content. -/
def b64decodeChars : List Char → Option (List Nat)
  | [] => some []
  | a :: b :: c :: d :: rest =>
      match b64Index a, b64Index b with
      | some va, some vb =>
          if c = '=' then
            if d = '=' ∧ rest = [] then some [va * 4 + vb / 16] else none
          else
            match b64Index c with
            | some vc =>
                if d = '=' then
                  if rest = [] then some [va * 4 + vb / 16, vb % 16 * 16 + vc / 4] else none
                else
                  match b64Index d, b64decodeChars rest with
                  | some vd, some bs =>
                      some ((va * 4 + vb / 16) :: (vb % 16 * 16 + vc / 4) ::
                        (vc % 4 * 64 + vd) :: bs)
                  | _, _ => none
            | none => none
      | _, _ => none
  | _ => none

/-- String form of the encoding (`base64.b64encode(...).decode("utf-8")`). -/
def b64encode (bs : List Nat) : String := String.mk (b64encodeChars bs)

/-- String form of the decoding. -/
def b64decode (s : String) : Option (List Nat) := b64decodeChars s.toList

/-! ### File classifier (`_get_file_type`, `_get_mime_type`) -/

/-- Split a character list on `/`, accumulating the current segment in
reverse. -/
def splitSlashAux : List Char → List Char → List (List Char)
  | [], cur => [cur.reverse]
  | c :: cs, cur =>
      if c = '/' then cur.reverse :: splitSlashAux cs [] else splitSlashAux cs (c :: cur)

/-- Final path component, as `pathlib.Path(p).name`: split on `/`, drop empty
and single-dot components (pathlib collapses those), take the last. -/
def pyName (p : String) : String :=
  String.mk (((splitSlashAux p.toList []).filter
    (fun s => s != ([] : List Char) && s != ['.'])).getLastD [])

/-- Index of the last `.` in a character list, counting from `n`. -/
def lastDotIdxAux : List Char → Nat → Option Nat
  | [], _ => none
  | c :: cs, n =>
      match lastDotIdxAux cs (n + 1) with
      | some j => some j
      | none => if c = '.' then some n else none

/-- Extension of a path, as `pathlib.Path(p).suffix`: the final component from
its last dot onward, provided that dot is neither the first nor the last
character of the component; otherwise the empty string. -/
def pySuffix (p : String) : String :=
  let cs := (pyName p).toList
  match lastDotIdxAux cs 0 with
  | none => ""
  | some i => if 0 < i ∧ i < cs.length - 1 then String.mk (cs.drop i) else ""

/-- Python's `str.lower()`, applied character-wise.  `Char.toLower` lowers
exactly the ASCII range; the extension literals it is compared against are
pure ASCII, so this agrees with Python's Unicode-aware lowering on every
comparison the classifier performs. -/
def pyToLower (s : String) : String := String.mk (s.toList.map Char.toLower)

/-- The image-extension set assigned by `__init__` to
`self.supported_image_formats` (every instance gets this same set, so the
classifier below reads it as a constant). -/
def supported_image_formats : List String := [".png", ".jpg", ".jpeg", ".gif", ".webp"]

/-- The pdf-extension set assigned by `__init__` to `self.supported_pdf_formats`. -/
def supported_pdf_formats : List String := [".pdf"]

/-- `_get_file_type`: lower-case the extension, return `'image'` or `'pdf'` by
set membership, otherwise raise `ValueError`. -/
def pyGetFileType (p : String) : Except PyErr String :=
  let extension := pyToLower (pySuffix p)
  if extension ∈ supported_image_formats then .ok "image"
  else if extension ∈ supported_pdf_formats then .ok "pdf"
  else .error (.valueError ("Unsupported file format: " ++ extension))

/-- The static extension-to-MIME table of `_get_mime_type`. -/
def mime_types : List (String × String) :=
  [(".png", "image/png"), (".jpg", "image/jpeg"), (".jpeg", "image/jpeg"),
   (".gif", "image/gif"), (".webp", "image/webp"), (".pdf", "application/pdf")]

/-- `_get_mime_type`: table lookup on the lower-cased extension, with
`'application/octet-stream'` as the `dict.get` default. -/
def pyGetMimeType (p : String) : String :=
  (pyLookup mime_types (pyToLower (pySuffix p))).getD "application/octet-stream"

/-! ### Payload encoder (`_create_content_for_image`, `_create_content_for_pdf`) -/

/-- The fixed instruction text `MULTIMODAL_EXTRACTION_TEMPLATE` from
`src/constants.py`. -/
def MULTIMODAL_EXTRACTION_TEMPLATE : String :=
  "\n# Instructions\nYou are an expert in extracting information from documents.\nYour task is to extract the information specified in the schema from the provided invoice document.\nReturn only the requested information in JSON format, without any additional text or explanation.\n"

/-- `_create_content_for_image`: instruction text segment followed by an
inline-data `image_url` block with a `data:` URL carrying MIME type and
base64 payload. -/
def createContentForImage (file_path base64_data : String) : List Json :=
  [Json.obj [("type", Json.str "text"), ("text", Json.str MULTIMODAL_EXTRACTION_TEMPLATE)],
   Json.obj [("type", Json.str "image_url"),
     ("image_url", Json.obj
       [("url", Json.str ("data:" ++ pyGetMimeType file_path ++ ";base64," ++ base64_data))])]]

/-- `_create_content_for_pdf`: instruction text segment followed by a named
`file` block carrying the original file name and the base64 payload. -/
def createContentForPdf (file_path base64_data : String) : List Json :=
  [Json.obj [("type", Json.str "text"), ("text", Json.str MULTIMODAL_EXTRACTION_TEMPLATE)],
   Json.obj [("type", Json.str "file"),
     ("file", Json.obj
       [("filename", Json.str (pyName file_path)),
        ("file_data", Json.str ("data:application/pdf;base64," ++ base64_data))])]]

/-! ### Processor construction (`__init__`) -/

/-- State of a constructed `MultimodalInvoiceProcessor`. -/
structure MultimodalInvoiceProcessor : Type where
  client_api_key : String
  model : String
  supportedImageFormatsField : List String
  supportedPdfFormatsField : List String

/-- `__init__`: fall back from the `api_key` argument to the `OPENAI_API_KEY`
environment variable; raise `ValueError` when neither supplies a key (the
client is only created after that check); otherwise build the instance with
its extension sets. -/
def processorInit (api_key : Option String) (env_openai_api_key : Option String)
    (model : String) : Except PyErr MultimodalInvoiceProcessor :=
  let key := match api_key with
    | none => env_openai_api_key
    | some k => some k
  match key with
  | none => Except.error (PyErr.valueError
      "OpenAI API key must be provided either as parameter or through OPENAI_API_KEY environment variable")
  | some k => Except.ok
      ⟨k, model, [".png", ".jpg", ".jpeg", ".gif", ".webp"], [".pdf"]⟩

/-! ### Extraction client (`extract_invoice_data`) -/

/-- Token accounting from the response envelope (`completion.usage`). -/
structure Usage : Type where
  completion_tokens : Nat
  prompt_tokens : Nat
  total_tokens : Nat

/-- Metadata record attached by `extract_invoice_data` under `'_metadata'`
(lines 143-150 of `digester.py`). -/
def metadataObj (file_path file_type model : String) (usage : Usage) : Json :=
  Json.obj
    [("file_path", Json.str file_path), ("file_type", Json.str file_type),
     ("model_used", Json.str model),
     ("completion_tokens", Json.num usage.completion_tokens),
     ("prompt_tokens", Json.num usage.prompt_tokens),
     ("total_tokens", Json.num usage.total_tokens)]

/-- `extract_invoice_data`.  The filesystem `fs` maps a path to `some bytes`
(existing, readable), `none` entry value (existing but unreadable: `open`
raises `PermissionError`), or no entry (missing: the `exists()` guard raises
`FileNotFoundError`).  The chat-completions call together with
`json.loads(...)` of the returned content is the oracle `api`, invoked once
with call number `0` and the message content; its error case is any exception
the `try` block can see (transport error, malformed response,
schema-conformance failure), its success case the parsed field mapping and
usage counters.  Everything the `try` block catches is re-raised as
`RuntimeError('Error during API call: ' + str(e))`. -/
def extractInvoiceData (model : String) (fs : List (String × Option (List Nat)))
    (api : Nat → List Json → Except String (List (String × Json) × Usage))
    (file_path : String) : Except PyErr Json :=
  match pyLookup fs file_path with
  | none => Except.error (PyErr.fileNotFoundError ("File not found: " ++ file_path))
  | some entry =>
    match pyGetFileType file_path with
    | .error e => Except.error e
    | .ok file_type =>
      match entry with
      | none => Except.error (PyErr.permissionError
          ("Permission denied: '" ++ file_path ++ "'"))
      | some bytes =>
        let base64_data := b64encode bytes
        let contentE : Except PyErr (List Json) :=
          if file_type = "image" then .ok (createContentForImage file_path base64_data)
          else if file_type = "pdf" then .ok (createContentForPdf file_path base64_data)
          else .error (.valueError ("Unsupported file type: " ++ file_type))
        match contentE with
        | .error e => Except.error e
        | .ok content =>
          match api 0 content with
          | .error e => Except.error (PyErr.runtimeError ("Error during API call: " ++ e))
          | .ok (fields, usage) =>
            Except.ok (Json.obj (pyDictInsert fields "_metadata"
              (metadataObj file_path file_type model usage)))

/-- `_extract_single_file_safe`: re-raise any exception from
`extract_invoice_data` as `RuntimeError('Error processing {path}: ' + str(e))`
(reduced here to its message text, which is all the orchestrator uses). -/
def extractSingleFileSafe (model : String) (fs : List (String × Option (List Nat)))
    (api : Nat → List Json → Except String (List (String × Json) × Usage))
    (file_path : String) : Except String Json :=
  match extractInvoiceData model fs api file_path with
  | .ok r => .ok r
  | .error e => .error ("Error processing " ++ file_path ++ ": " ++ e.text)

/-! ### Fan-out orchestrator (`extract_from_multiple_files`) -/

/-- The per-file failure entry the orchestrator writes from a raised
exception's message: error text plus a metadata record with the path and a
`status: failed` marker. -/
def failureRecord (file_path msg : String) : Json :=
  Json.obj [("error", Json.str msg),
    ("_metadata", Json.obj
      [("file_path", Json.str file_path), ("status", Json.str "failed")])]

/-- Entry stored for one completed task: the result on success, the
`failureRecord` built in the `except` branch on failure. -/
def taskRecord (file_path : String) : Except String Json → Json
  | .ok r => r
  | .error e => failureRecord file_path e

/-- The `as_completed` collection loop: fold the completed tasks, in
completion order, into the results dict. -/
def collectResultsAux (acc : List (String × Json)) :
    List (String × Except String Json) → List (String × Json)
  | [] => acc
  | (p, out) :: rest => collectResultsAux (pyDictInsert acc p (taskRecord p out)) rest

/-- `extract_from_multiple_files`, given the completed per-file task outcomes
in completion order.  `completions` lists, for each submitted future, the
path it was submitted for and the outcome of `_extract_single_file_safe`;
`as_completed` yields the futures in some order, so the paths of
`completions` form a permutation of the submitted `file_paths`.
`ThreadPoolExecutor(max_workers=0)` raises `ValueError` before any task is
submitted; for positive `max_workers` the returned dict is the fold of the
completions. -/
def extractFromMultipleFiles (max_workers : Nat)
    (completions : List (String × Except String Json)) :
    Except PyErr (List (String × Json)) :=
  if max_workers = 0 then
    Except.error (PyErr.valueError "max_workers must be greater than 0")
  else Except.ok (collectResultsAux [] completions)

/-- The tasks submitted by the fan-out loop: one per input path, in order
(lines 172-175 of `digester.py`). -/
def submittedTasks (file_paths : List String) : List String := file_paths

/-- Top-level property names of `EXTRACTION_SCHEMA` in `src/constants.py`
(the schema the client sends as the response-format constraint). -/
def EXTRACTION_SCHEMA_property_names : List String :=
  ["issuing_company_name", "issuing_company_address", "issuing_company_phone",
   "issuing_company_website", "issuing_company_email", "invoice_number",
   "issue_date", "due_date", "reference_number", "currency", "line_items",
   "gst_information", "total_amount_due"]

/-! ## Lemmas about the embedding -/

theorem pyLookup_pyDictInsert_self {α : Type} (d : List (String × α)) (k : String) (v : α) :
    pyLookup (pyDictInsert d k v) k = some v := by
  induction d with
  | nil => simp [pyDictInsert, pyLookup]
  | cons hd tl ih =>
      obtain ⟨k', v'⟩ := hd
      by_cases h : k' = k
      · simp [pyDictInsert, pyLookup, h]
      · simp [pyDictInsert, pyLookup, h, ih]

theorem pyLookup_pyDictInsert_ne {α : Type} (d : List (String × α)) (k k' : String) (v : α)
    (h : k' ≠ k) : pyLookup (pyDictInsert d k v) k' = pyLookup d k' := by
  induction d with
  | nil => simp [pyDictInsert, pyLookup, if_neg (Ne.symm h)]
  | cons hd tl ih =>
      obtain ⟨k'', v''⟩ := hd
      by_cases hk : k'' = k
      · subst hk
        simp [pyDictInsert, pyLookup, if_neg (Ne.symm h)]
      · simp only [pyDictInsert, if_neg hk, pyLookup]
        by_cases hk' : k'' = k'
        · simp [hk']
        · simp [hk', ih]

theorem mem_dictKeys_pyDictInsert {α : Type} (d : List (String × α)) (k a : String) (v : α) :
    a ∈ dictKeys (pyDictInsert d k v) ↔ a = k ∨ a ∈ dictKeys d := by
  induction d with
  | nil => simp [pyDictInsert, dictKeys]
  | cons hd tl ih =>
      obtain ⟨k', v'⟩ := hd
      by_cases h : k' = k
      · subst h
        simp [pyDictInsert, dictKeys]
      · simp only [pyDictInsert, if_neg h, dictKeys, List.map_cons, List.mem_cons] at ih ⊢
        rw [ih]
        tauto

theorem nodup_dictKeys_pyDictInsert {α : Type} (d : List (String × α)) (k : String) (v : α)
    (h : (dictKeys d).Nodup) : (dictKeys (pyDictInsert d k v)).Nodup := by
  induction d with
  | nil => simp [pyDictInsert, dictKeys]
  | cons hd tl ih =>
      obtain ⟨k', v'⟩ := hd
      simp only [dictKeys, List.map_cons, List.nodup_cons] at h
      by_cases hk : k' = k
      · subst hk
        simpa [pyDictInsert, dictKeys] using h
      · simp only [pyDictInsert, if_neg hk, dictKeys, List.map_cons, List.nodup_cons]
        refine ⟨fun hmem => ?_, ih h.2⟩
        rcases (mem_dictKeys_pyDictInsert tl k k' v).1 hmem with h1 | h1
        · exact hk h1
        · exact h.1 h1
theorem b64Index_b64Char : ∀ i : Fin 64, b64Index (b64Char i.val) = some i.val := by decide

theorem b64Char_ne_eq : ∀ i : Fin 64, b64Char i.val ≠ '=' := by decide

theorem b64Index_b64Char_of_lt {n : Nat} (h : n < 64) : b64Index (b64Char n) = some n :=
  b64Index_b64Char ⟨n, h⟩

theorem b64Char_ne_eq_of_lt {n : Nat} (h : n < 64) : b64Char n ≠ '=' :=
  b64Char_ne_eq ⟨n, h⟩

theorem b64_roundtrip_chars (bs : List Nat) (hb : ∀ b ∈ bs, b < 256) :
    b64decodeChars (b64encodeChars bs) = some bs := by
  induction bs using b64encodeChars.induct with
  | case1 => simp [b64encodeChars, b64decodeChars]
  | case2 b0 =>
      have h0 : b0 < 256 := hb b0 (by simp)
      have h1 : b0 / 4 < 64 := by omega
      have h2 : b0 % 4 * 16 < 64 := by omega
      simp [b64encodeChars, b64decodeChars,
        b64Index_b64Char_of_lt h1, b64Index_b64Char_of_lt h2]
      omega
  | case3 b0 b1 =>
      have h0 : b0 < 256 := hb b0 (by simp)
      have h0' : b1 < 256 := hb b1 (by simp)
      have h1 : b0 / 4 < 64 := by omega
      have h2 : b0 % 4 * 16 + b1 / 16 < 64 := by omega
      have h3 : b1 % 16 * 4 < 64 := by omega
      simp [b64encodeChars, b64decodeChars, b64Index_b64Char_of_lt h1,
        b64Index_b64Char_of_lt h2, b64Index_b64Char_of_lt h3, b64Char_ne_eq_of_lt h3]
      omega
  | case4 b0 b1 b2 rest ih =>
      have h0 : b0 < 256 := hb b0 (by simp)
      have h0' : b1 < 256 := hb b1 (by simp)
      have h0'' : b2 < 256 := hb b2 (by simp)
      have h1 : b0 / 4 < 64 := by omega
      have h2 : b0 % 4 * 16 + b1 / 16 < 64 := by omega
      have h3 : b1 % 16 * 4 + b2 / 64 < 64 := by omega
      have h4 : b2 % 64 < 64 := by omega
      have hrest : ∀ b ∈ rest, b < 256 := fun b hbm => hb b (by simp [hbm])
      simp [b64encodeChars, b64decodeChars, b64Index_b64Char_of_lt h1,
        b64Index_b64Char_of_lt h2, b64Index_b64Char_of_lt h3, b64Index_b64Char_of_lt h4,
        b64Char_ne_eq_of_lt h3, b64Char_ne_eq_of_lt h4, ih hrest]
      omega

theorem pyLookup_collectResultsAux_not_mem (c : List (String × Except String Json))
    (p : String) (h : p ∉ c.map Prod.fst) (acc : List (String × Json)) :
    pyLookup (collectResultsAux acc c) p = pyLookup acc p := by
  induction c generalizing acc with
  | nil => rfl
  | cons hd rest ih =>
      obtain ⟨q, out⟩ := hd
      simp only [List.map_cons, List.mem_cons] at h
      push_neg at h
      rw [collectResultsAux, ih h.2, pyLookup_pyDictInsert_ne _ _ _ _ h.1]

theorem pyLookup_collectResultsAux_mem (c : List (String × Except String Json))
    (hnd : (c.map Prod.fst).Nodup) (p : String) (out : Except String Json)
    (hm : (p, out) ∈ c) (acc : List (String × Json)) :
    pyLookup (collectResultsAux acc c) p = some (taskRecord p out) := by
  induction c generalizing acc with
  | nil => cases hm
  | cons hd rest ih =>
      obtain ⟨q, o⟩ := hd
      simp only [List.map_cons, List.nodup_cons] at hnd
      rcases List.mem_cons.1 hm with heq | hmem
      · obtain ⟨rfl, rfl⟩ := Prod.mk.injEq .. ▸ heq
        rw [collectResultsAux,
          pyLookup_collectResultsAux_not_mem rest p hnd.1 _,
          pyLookup_pyDictInsert_self]
      · exact ih hnd.2 hmem _

theorem mem_dictKeys_collectResultsAux (c : List (String × Except String Json))
    (a : String) (acc : List (String × Json)) :
    a ∈ dictKeys (collectResultsAux acc c) ↔ a ∈ dictKeys acc ∨ a ∈ c.map Prod.fst := by
  induction c generalizing acc with
  | nil => simp [collectResultsAux]
  | cons hd rest ih =>
      obtain ⟨q, o⟩ := hd
      rw [collectResultsAux, ih]
      simp [mem_dictKeys_pyDictInsert]
      tauto

theorem nodup_dictKeys_collectResultsAux (c : List (String × Except String Json))
    (acc : List (String × Json)) (h : (dictKeys acc).Nodup) :
    (dictKeys (collectResultsAux acc c)).Nodup := by
  induction c generalizing acc with
  | nil => exact h
  | cons hd rest ih =>
      obtain ⟨q, o⟩ := hd
      exact ih _ (nodup_dictKeys_pyDictInsert _ _ _ h)

theorem pyGetFileType_ok_cases (p ft : String) (h : pyGetFileType p = .ok ft) :
    ft = "image" ∨ ft = "pdf" := by
  simp only [pyGetFileType] at h
  split_ifs at h
  · left
    exact (Except.ok.injEq _ _ ▸ h).symm
  · right
    exact (Except.ok.injEq _ _ ▸ h).symm

/-! ## Claims -/

/-- C5: for every file content (every byte sequence), encoding with
`_encode_file_to_base64` and then base64-decoding the payload reproduces the
original byte content exactly. -/
theorem claim_C5_base64_roundtrip (bs : List Nat) (hb : ∀ b ∈ bs, b < 256) :
    b64decode (b64encode bs) = some bs := by
  have h : (b64encode bs).toList = b64encodeChars bs := rfl
  rw [b64decode, h, b64_roundtrip_chars bs hb]

/-- Witness for C5 at the first four bytes of a PNG header. -/
theorem claim_C5_base64_roundtrip_witness :
    (∀ b ∈ [137, 80, 78, 71], b < 256) ∧
      b64decode (b64encode [137, 80, 78, 71]) = some [137, 80, 78, 71] :=
  ⟨by decide, claim_C5_base64_roundtrip [137, 80, 78, 71] (by decide)⟩

/-- C4: for every input file and both kinds, the encoded payload is a
two-segment message body: the first segment is the fixed instruction text,
the second is the kind-appropriate content block — for images an inline-data
block whose data URL carries the file's MIME type and the base64 bytes, for
pdfs a named-file block carrying the original file name and the base64
bytes. -/
theorem claim_C4_payload_two_segments (file_path base64_data : String) :
    (createContentForImage file_path base64_data).length = 2 ∧
    (createContentForImage file_path base64_data).head? =
      some (Json.obj [("type", Json.str "text"),
        ("text", Json.str MULTIMODAL_EXTRACTION_TEMPLATE)]) ∧
    (createContentForImage file_path base64_data).getLast? =
      some (Json.obj [("type", Json.str "image_url"),
        ("image_url", Json.obj [("url", Json.str
          ("data:" ++ pyGetMimeType file_path ++ ";base64," ++ base64_data))])]) ∧
    (createContentForPdf file_path base64_data).length = 2 ∧
    (createContentForPdf file_path base64_data).head? =
      some (Json.obj [("type", Json.str "text"),
        ("text", Json.str MULTIMODAL_EXTRACTION_TEMPLATE)]) ∧
    (createContentForPdf file_path base64_data).getLast? =
      some (Json.obj [("type", Json.str "file"),
        ("file", Json.obj [("filename", Json.str (pyName file_path)),
          ("file_data", Json.str ("data:application/pdf;base64," ++ base64_data))])]) :=
  ⟨rfl, rfl, rfl, rfl, rfl, rfl⟩

/-- C10: constructing the processor with no `api_key` argument and no
`OPENAI_API_KEY` environment variable raises `ValueError` (no instance is
built, so no client is created); when either source supplies a key,
construction succeeds with the stated image- and pdf-extension sets. -/
theorem claim_C10_init_key_fallback :
    (∀ model : String, processorInit none none model = Except.error (PyErr.valueError
      "OpenAI API key must be provided either as parameter or through OPENAI_API_KEY environment variable")) ∧
    (∀ (k : String) (env : Option String) (model : String),
      processorInit (some k) env model =
        Except.ok ⟨k, model, [".png", ".jpg", ".jpeg", ".gif", ".webp"], [".pdf"]⟩) ∧
    (∀ k model : String,
      processorInit none (some k) model =
        Except.ok ⟨k, model, [".png", ".jpg", ".jpeg", ".gif", ".webp"], [".pdf"]⟩) :=
  ⟨fun _ => rfl, fun _ _ _ => rfl, fun _ _ => rfl⟩

/-- C3: for every path whose lower-cased extension is a supported image
extension, classification returns kind `'image'` and a non-empty MIME type of
the `image/` family; for a `.pdf` extension it returns kind `'pdf'` and MIME
`'application/pdf'`; for every other extension it raises the unsupported-format
`ValueError`. -/
theorem claim_C3_classifier (p e : String) (he : e = pyToLower (pySuffix p)) :
    (e ∈ supported_image_formats →
      pyGetFileType p = .ok "image" ∧ pyGetMimeType p ≠ "" ∧
        ∃ sub, pyGetMimeType p = "image/" ++ sub) ∧
    (e = ".pdf" →
      pyGetFileType p = .ok "pdf" ∧ pyGetMimeType p = "application/pdf") ∧
    (e ∉ supported_image_formats → e ≠ ".pdf" →
      pyGetFileType p = .error (.valueError ("Unsupported file format: " ++ e))) := by
  subst he
  refine ⟨fun hm => ?_, fun hp => ?_, fun hn1 hn2 => ?_⟩
  · simp only [supported_image_formats, List.mem_cons, List.not_mem_nil, or_false] at hm
    rcases hm with h | h | h | h | h
    · exact ⟨by simp [pyGetFileType, h, supported_image_formats],
        by simp [pyGetMimeType, pyLookup, mime_types, h],
        "png", by simp [pyGetMimeType, pyLookup, mime_types, h]⟩
    · exact ⟨by simp [pyGetFileType, h, supported_image_formats],
        by simp [pyGetMimeType, pyLookup, mime_types, h],
        "jpeg", by simp [pyGetMimeType, pyLookup, mime_types, h]⟩
    · exact ⟨by simp [pyGetFileType, h, supported_image_formats],
        by simp [pyGetMimeType, pyLookup, mime_types, h],
        "jpeg", by simp [pyGetMimeType, pyLookup, mime_types, h]⟩
    · exact ⟨by simp [pyGetFileType, h, supported_image_formats],
        by simp [pyGetMimeType, pyLookup, mime_types, h],
        "gif", by simp [pyGetMimeType, pyLookup, mime_types, h]⟩
    · exact ⟨by simp [pyGetFileType, h, supported_image_formats],
        by simp [pyGetMimeType, pyLookup, mime_types, h],
        "webp", by simp [pyGetMimeType, pyLookup, mime_types, h]⟩
  · simp [pyGetFileType, pyGetMimeType, pyLookup, mime_types, hp,
      supported_image_formats, supported_pdf_formats]
  · have hn2' : pyToLower (pySuffix p) ∉ supported_pdf_formats := by
      simp [supported_pdf_formats, hn2]
    simp [pyGetFileType, hn1, hn2']

/-- Witness for C3: an upper-case image extension, a pdf and an unsupported
extension, classified concretely. -/
theorem claim_C3_classifier_witness :
    (".png" ∈ supported_image_formats ∧
      pyGetFileType "scans/Invoice.PNG" = .ok "image" ∧
      pyGetMimeType "scans/Invoice.PNG" ≠ "" ∧
      ∃ sub, pyGetMimeType "scans/Invoice.PNG" = "image/" ++ sub) ∧
    (pyGetFileType "bill.pdf" = .ok "pdf" ∧ pyGetMimeType "bill.pdf" = "application/pdf") ∧
    (pyGetFileType "notes.txt" = .error (.valueError "Unsupported file format: .txt")) := by
  refine ⟨⟨by decide, (claim_C3_classifier "scans/Invoice.PNG" ".png" (by decide)).1 (by decide)⟩,
    (claim_C3_classifier "bill.pdf" ".pdf" (by decide)).2.1 rfl, ?_⟩
  have h := (claim_C3_classifier "notes.txt" ".txt" (by decide)).2.2 (by decide) (by decide)
  exact h

/-- C6: when the model call fails (transport error, malformed response or
schema-conformance failure — any error of the oracle), `extract_invoice_data`
fails with the single `RuntimeError` wrapping it, the underlying cause's text
preserved in the message; and the result depends only on the outcome of call
number `0` — no second call is ever consulted, i.e. no retry is attempted. -/
theorem claim_C6_single_wrapped_error (model : String)
    (fs : List (String × Option (List Nat)))
    (api : Nat → List Json → Except String (List (String × Json) × Usage))
    (p ft e : String) (bytes : List Nat)
    (hfs : pyLookup fs p = some (some bytes))
    (hty : pyGetFileType p = .ok ft)
    (herr : ∀ c, api 0 c = Except.error e) :
    extractInvoiceData model fs api p =
      Except.error (PyErr.runtimeError ("Error during API call: " ++ e)) ∧
    (∀ api₁ api₂ : Nat → List Json → Except String (List (String × Json) × Usage),
      (∀ c, api₁ 0 c = api₂ 0 c) →
      extractInvoiceData model fs api₁ p = extractInvoiceData model fs api₂ p) := by
  constructor
  · rcases pyGetFileType_ok_cases p ft hty with h | h <;> subst h <;>
      simp [extractInvoiceData, hfs, hty, herr]
  · intro api₁ api₂ hagree
    rcases pyGetFileType_ok_cases p ft hty with h | h <;> subst h <;>
      simp [extractInvoiceData, hfs, hty, hagree]

/-- Witness for C6: a readable png whose model call fails with `boom`. -/
theorem claim_C6_single_wrapped_error_witness :
    pyLookup [("inv.png", some [1, 2, 3])] "inv.png" = some (some [1, 2, 3]) ∧
    pyGetFileType "inv.png" = .ok "image" ∧
    (∀ c : List Json, (fun (_ : Nat) (_ : List Json) =>
      (Except.error "boom" : Except String (List (String × Json) × Usage))) 0 c =
        Except.error "boom") ∧
    extractInvoiceData "gpt-4o" [("inv.png", some [1, 2, 3])]
        (fun _ _ => Except.error "boom") "inv.png" =
      Except.error (PyErr.runtimeError "Error during API call: boom") :=
  ⟨rfl, rfl, fun _ => rfl,
    (claim_C6_single_wrapped_error "gpt-4o" [("inv.png", some [1, 2, 3])]
      (fun _ _ => Except.error "boom") "inv.png" "image" "boom" [1, 2, 3]
      rfl rfl (fun _ => rfl)).1⟩

/-- C8: every successful extraction returns the schema's field mapping with a
`_metadata` object added under the reserved key `'_metadata'`, holding the
source file path, the detected kind, the model identifier and token counters
(total plus the prompt/completion breakdown); every other key is left exactly
as the model returned it, and `'_metadata'` is not among the schema's
top-level field names. -/
theorem claim_C8_metadata_attached (model : String)
    (fs : List (String × Option (List Nat)))
    (api : Nat → List Json → Except String (List (String × Json) × Usage))
    (p ft : String) (bytes : List Nat)
    (fields : List (String × Json)) (usage : Usage)
    (hfs : pyLookup fs p = some (some bytes))
    (hty : pyGetFileType p = .ok ft)
    (hok : ∀ c, api 0 c = Except.ok (fields, usage)) :
    extractInvoiceData model fs api p =
      Except.ok (Json.obj (pyDictInsert fields "_metadata" (metadataObj p ft model usage))) ∧
    pyLookup (pyDictInsert fields "_metadata" (metadataObj p ft model usage)) "_metadata" =
      some (metadataObj p ft model usage) ∧
    (∀ k, k ≠ "_metadata" →
      pyLookup (pyDictInsert fields "_metadata" (metadataObj p ft model usage)) k =
        pyLookup fields k) ∧
    metadataObj p ft model usage = Json.obj
      [("file_path", Json.str p), ("file_type", Json.str ft),
       ("model_used", Json.str model),
       ("completion_tokens", Json.num usage.completion_tokens),
       ("prompt_tokens", Json.num usage.prompt_tokens),
       ("total_tokens", Json.num usage.total_tokens)] ∧
    "_metadata" ∉ EXTRACTION_SCHEMA_property_names := by
  refine ⟨?_, pyLookup_pyDictInsert_self _ _ _,
    fun k hk => pyLookup_pyDictInsert_ne _ _ _ _ hk, rfl, by decide⟩
  rcases pyGetFileType_ok_cases p ft hty with h | h <;> subst h <;>
    simp [extractInvoiceData, hfs, hty, hok]

/-- Witness for C8: a successful extraction of a one-field result. -/
theorem claim_C8_metadata_attached_witness :
    pyLookup [("inv.png", some [9])] "inv.png" = some (some [9]) ∧
    pyGetFileType "inv.png" = .ok "image" ∧
    extractInvoiceData "gpt-4o" [("inv.png", some [9])]
        (fun _ _ => Except.ok ([("invoice_number", Json.str "INV-001")], ⟨3, 5, 8⟩))
        "inv.png" =
      Except.ok (Json.obj (pyDictInsert [("invoice_number", Json.str "INV-001")]
        "_metadata" (metadataObj "inv.png" "image" "gpt-4o" ⟨3, 5, 8⟩))) ∧
    "_metadata" ∉ EXTRACTION_SCHEMA_property_names :=
  ⟨rfl, rfl,
    (claim_C8_metadata_attached "gpt-4o" [("inv.png", some [9])]
      (fun _ _ => Except.ok ([("invoice_number", Json.str "INV-001")], ⟨3, 5, 8⟩))
      "inv.png" "image" [9] [("invoice_number", Json.str "INV-001")] ⟨3, 5, 8⟩
      rfl rfl (fun _ => rfl)).1,
    (claim_C8_metadata_attached "gpt-4o" [("inv.png", some [9])]
      (fun _ _ => Except.ok ([("invoice_number", Json.str "INV-001")], ⟨3, 5, 8⟩))
      "inv.png" "image" [9] [("invoice_number", Json.str "INV-001")] ⟨3, 5, 8⟩
      rfl rfl (fun _ => rfl)).2.2.2.2⟩

/-- C7 counterexample: a path that exists but is not readable.  `exists()` is
true, so the guard passes, classification runs, and the failure that surfaces
is the `PermissionError` from `open` inside `_encode_file_to_base64` — not a
`FileNotFoundError`, and not before classification/encoding. -/
theorem claim_C7_counterexample :
    pyLookup [("inv.pdf", (none : Option (List Nat)))] "inv.pdf" = some none ∧
    extractInvoiceData "gpt-4o" [("inv.pdf", none)]
        (fun _ _ => Except.error "x") "inv.pdf" =
      Except.error (PyErr.permissionError "Permission denied: 'inv.pdf'") ∧
    ∀ m : String,
      extractInvoiceData "gpt-4o" [("inv.pdf", none)]
          (fun _ _ => Except.error "x") "inv.pdf" ≠
        Except.error (PyErr.fileNotFoundError m) := by
  have h2 : extractInvoiceData "gpt-4o" [("inv.pdf", (none : Option (List Nat)))]
      (fun _ _ => Except.error "x") "inv.pdf" =
      Except.error (PyErr.permissionError "Permission denied: 'inv.pdf'") := rfl
  refine ⟨rfl, h2, ?_⟩
  intro m hc
  rw [h2] at hc
  exact absurd hc (by simp)

/-- C7 (amended): for every path with no filesystem entry — `exists()` false —
extraction fails with `FileNotFoundError` before any classification or
encoding, for every extension and every endpoint behaviour. -/
theorem claim_C7_missing_file (model : String)
    (fs : List (String × Option (List Nat)))
    (api : Nat → List Json → Except String (List (String × Json) × Usage))
    (p : String) (h : pyLookup fs p = none) :
    extractInvoiceData model fs api p =
      Except.error (PyErr.fileNotFoundError ("File not found: " ++ p)) := by
  unfold extractInvoiceData
  rw [h]

/-- Witness for C7 (amended): a missing file with an unsupported extension
still fails with `FileNotFoundError`, showing the guard precedes
classification. -/
theorem claim_C7_missing_file_witness :
    pyLookup ([] : List (String × Option (List Nat))) "ghost.docx" = none ∧
    extractInvoiceData "gpt-4o" [] (fun _ _ => Except.error "x") "ghost.docx" =
      Except.error (PyErr.fileNotFoundError "File not found: ghost.docx") :=
  ⟨rfl, claim_C7_missing_file "gpt-4o" [] (fun _ _ => Except.error "x") "ghost.docx" rfl⟩

/-- C1 (amended): for every positive `max_workers` and every completion order
of the submitted tasks, the ResultMap holds exactly one entry per distinct
input path string — its keys are exactly the input paths, without duplicates —
so when the N input paths are pairwise distinct it has exactly N entries
(with duplicated inputs, duplicates share a single entry). -/
theorem claim_C1_one_entry_per_path (file_paths : List String) (max_workers : Nat)
    (completions : List (String × Except String Json))
    (hw : 0 < max_workers)
    (hperm : (completions.map Prod.fst).Perm file_paths) :
    extractFromMultipleFiles max_workers completions =
      Except.ok (collectResultsAux [] completions) ∧
    (∀ p, p ∈ file_paths ↔ p ∈ dictKeys (collectResultsAux [] completions)) ∧
    (dictKeys (collectResultsAux [] completions)).Nodup ∧
    (collectResultsAux [] completions).length = file_paths.dedup.length ∧
    (file_paths.Nodup → (collectResultsAux [] completions).length = file_paths.length) := by
  have hmem : ∀ p, p ∈ dictKeys (collectResultsAux [] completions) ↔ p ∈ file_paths := by
    intro p
    rw [mem_dictKeys_collectResultsAux]
    simp only [dictKeys, List.map_nil, List.not_mem_nil, false_or]
    exact hperm.mem_iff
  have hnd : (dictKeys (collectResultsAux [] completions)).Nodup :=
    nodup_dictKeys_collectResultsAux _ _ (by simp [dictKeys])
  have hlen : (collectResultsAux [] completions).length = file_paths.dedup.length := by
    have h1 : (dictKeys (collectResultsAux [] completions)).length =
        (collectResultsAux [] completions).length := by
      simp [dictKeys]
    have hperm2 : (dictKeys (collectResultsAux [] completions)).Perm file_paths.dedup := by
      rw [List.perm_ext_iff_of_nodup hnd (List.nodup_dedup _)]
      intro a
      rw [List.mem_dedup]
      exact hmem a
    rw [← h1, hperm2.length_eq]
  exact ⟨by rw [extractFromMultipleFiles, if_neg (Nat.pos_iff_ne_zero.mp hw)],
    fun p => (hmem p).symm, hnd, hlen,
    fun hnodup => by rw [hlen, List.dedup_eq_self.mpr hnodup]⟩

/-- C1 counterexample: two submissions of the same path (N = 2 input paths,
`max_workers = 1`, both tasks fail) produce a ResultMap with a single entry,
not two — the dict keyed by `str(file_path)` merges duplicate paths. -/
theorem claim_C1_duplicate_paths_counterexample :
    0 < 1 ∧
    ((([("a.png", Except.error "boom"), ("a.png", Except.error "boom")]) :
        List (String × Except String Json)).map Prod.fst).Perm ["a.png", "a.png"] ∧
    (["a.png", "a.png"] : List String).length = 2 ∧
    extractFromMultipleFiles 1
        [("a.png", Except.error "boom"), ("a.png", Except.error "boom")] =
      Except.ok [("a.png", failureRecord "a.png" "boom")] ∧
    ([("a.png", failureRecord "a.png" "boom")] : List (String × Json)).length = 1 := by
  exact ⟨by decide, List.Perm.refl _, rfl, rfl, rfl⟩

/-- Witness for C1 (amended): two distinct paths, one success and one
failure, in a completion order different from submission order. -/
theorem claim_C1_one_entry_per_path_witness :
    0 < 3 ∧
    ((([("b.pdf", Except.error "boom"), ("a.png", Except.ok (Json.num 1))]) :
        List (String × Except String Json)).map Prod.fst).Perm ["a.png", "b.pdf"] ∧
    (collectResultsAux []
        [("b.pdf", Except.error "boom"), ("a.png", Except.ok (Json.num 1))]).length =
      (["a.png", "b.pdf"] : List String).dedup.length :=
  ⟨by decide, by decide,
    (claim_C1_one_entry_per_path ["a.png", "b.pdf"] 3
      [("b.pdf", Except.error "boom"), ("a.png", Except.ok (Json.num 1))]
      (by decide) (by decide)).2.2.2.1⟩

/-- C2: for every positive `max_workers` and every list of completed task
outcomes, `extract_from_multiple_files` returns a dict normally (no exception
escapes it: its only failure is the `max_workers = 0` guard, which precedes
any task); each failing task's exception is converted into the failure entry
carrying the exception's message and a `status: failed` metadata marker under
that task's own key, while every succeeding task's result is stored intact —
so one file's failure never aborts or skips a sibling's entry; and
`_extract_single_file_safe` wraps any exception from `extract_invoice_data`
into the `Error processing {path}: ...` message the orchestrator stores. -/
theorem claim_C2_failure_isolation (max_workers : Nat)
    (completions : List (String × Except String Json)) (hw : 0 < max_workers) :
    extractFromMultipleFiles max_workers completions =
      Except.ok (collectResultsAux [] completions) ∧
    ((completions.map Prod.fst).Nodup →
      (∀ p e, (p, Except.error e) ∈ completions →
        pyLookup (collectResultsAux [] completions) p =
          some (Json.obj [("error", Json.str e),
            ("_metadata", Json.obj
              [("file_path", Json.str p), ("status", Json.str "failed")])])) ∧
      (∀ p r, (p, Except.ok r) ∈ completions →
        pyLookup (collectResultsAux [] completions) p = some r)) ∧
    (∀ (model : String) (fs : List (String × Option (List Nat)))
        (api : Nat → List Json → Except String (List (String × Json) × Usage))
        (p : String) (err : PyErr),
      extractInvoiceData model fs api p = Except.error err →
      extractSingleFileSafe model fs api p =
        Except.error ("Error processing " ++ p ++ ": " ++ err.text)) := by
  refine ⟨by rw [extractFromMultipleFiles, if_neg (Nat.pos_iff_ne_zero.mp hw)],
    fun hnd => ⟨fun p e hm => ?_, fun p r hm => ?_⟩,
    fun model fs api p err h => ?_⟩
  · have hl := pyLookup_collectResultsAux_mem completions hnd p (Except.error e) hm []
    simpa [taskRecord, failureRecord] using hl
  · have hl := pyLookup_collectResultsAux_mem completions hnd p (Except.ok r) hm []
    simpa [taskRecord] using hl
  · rw [extractSingleFileSafe, h]

/-- Witness for C2: one failing and one succeeding task; both entries are
present, the failure as a structured record, the success intact. -/
theorem claim_C2_failure_isolation_witness :
    0 < 3 ∧
    ((([("a.png", Except.error "boom"), ("b.pdf", Except.ok (Json.num 7))]) :
        List (String × Except String Json)).map Prod.fst).Nodup ∧
    pyLookup (collectResultsAux []
        [("a.png", Except.error "boom"), ("b.pdf", Except.ok (Json.num 7))]) "a.png" =
      some (Json.obj [("error", Json.str "boom"),
        ("_metadata", Json.obj
          [("file_path", Json.str "a.png"), ("status", Json.str "failed")])]) ∧
    pyLookup (collectResultsAux []
        [("a.png", Except.error "boom"), ("b.pdf", Except.ok (Json.num 7))]) "b.pdf" =
      some (Json.num 7) :=
  ⟨by decide, by decide,
    ((claim_C2_failure_isolation 3
      [("a.png", Except.error "boom"), ("b.pdf", Except.ok (Json.num 7))]
      (by decide)).2.1 (by decide)).1 "a.png" "boom" (List.mem_cons_self _ _),
    ((claim_C2_failure_isolation 3
      [("a.png", Except.error "boom"), ("b.pdf", Except.ok (Json.num 7))]
      (by decide)).2.1 (by decide)).2 "b.pdf" (Json.num 7)
      (List.mem_cons_of_mem _ (List.mem_cons_self _ _))⟩

/-- C9: with an empty path list no task is submitted, the only possible
completion list is empty, and the orchestrator returns the empty ResultMap. -/
theorem claim_C9_empty_input (max_workers : Nat)
    (completions : List (String × Except String Json)) (hw : 0 < max_workers)
    (hperm : (completions.map Prod.fst).Perm ([] : List String)) :
    submittedTasks [] = [] ∧ completions = [] ∧
    extractFromMultipleFiles max_workers completions = Except.ok [] := by
  have h1 : completions.map Prod.fst = [] := hperm.eq_nil
  have h2 : completions = [] := by
    cases completions with
    | nil => rfl
    | cons a l => simp at h1
  subst h2
  exact ⟨rfl, rfl, by rw [extractFromMultipleFiles, if_neg (Nat.pos_iff_ne_zero.mp hw)]; rfl⟩

/-- Witness for C9 at the default-like worker bound of 3. -/
theorem claim_C9_empty_input_witness :
    0 < 3 ∧
    ((([] : List (String × Except String Json)).map Prod.fst).Perm ([] : List String)) ∧
    extractFromMultipleFiles 3 ([] : List (String × Except String Json)) = Except.ok [] :=
  ⟨by decide, by decide,
    (claim_C9_empty_input 3 [] (by decide) (by decide)).2.2⟩
